import Mathlib

/-!
Shallow embedding of `src/backend/read.cpp` of the RFID-scanner repository.

The program is a single polling loop: it initializes the MFRC522 reader and
one MySQL connection, then repeatedly checks for a card.  When a card is
detected it renders the UID bytes as an uppercase hexadecimal string, issues
one `SELECT` keyed by that string, and branches: on a hit it writes
`tap_count + 1` and `last_scan_time = NOW()` back and prints a parity-based
greeting; on a miss it inserts a fresh row with `tap_count = 1` and prints a
confirmation.  A `sql::SQLException` from any statement is caught and logged
to `stderr`, and `delay(1000)` runs at the end of the card-handling body.

We model the users table as a list of rows, `NOW()` as a per-iteration
timestamp input, card detection as an optional byte list per iteration, and
possible SQL exceptions as per-statement fault flags supplied with each
iteration's input.  Each iteration returns the new table together with the
trace of externally visible actions (SQL statements, prints to stdout and
stderr, sleeps) in program order.
-/

namespace RFIDScanner

/-- One hexadecimal digit as printed by `std::hex << std::uppercase`:
digits `0`-`9` then uppercase letters `A`-`F`. -/
def hexDigit (n : Nat) : Char :=
  if n < 10 then Char.ofNat (48 + n) else Char.ofNat (55 + n)

/-- Accumulate the base-16 digits of `n`, most significant first.  The first
argument is fuel; `hexChars` supplies enough of it, so the recursion mirrors
the digit loop of the iostream integer inserter. -/
def hexCharsAux : Nat → Nat → List Char → List Char
  | 0, _, acc => acc
  | fuel + 1, n, acc =>
    if n = 0 then acc
    else hexCharsAux fuel (n / 16) (hexDigit (n % 16) :: acc)

/-- The uppercase hexadecimal digits of `n`, as `operator<<` prints an `int`
under `std::hex << std::uppercase` (the value `0` prints as `"0"`). -/
def hexChars (n : Nat) : List Char :=
  if n = 0 then [hexDigit 0] else hexCharsAux n n []

/-- The characters appended to the stream for one UID byte:
`std::setw(2) << std::setfill('0')` left-pads the hex digits to width 2. -/
def byteToHex (b : Nat) : List Char :=
  List.replicate (2 - (hexChars b).length) (hexDigit 0) ++ hexChars b

/-- The characters accumulated in the `stringstream` for the whole UID: the
per-byte renderings concatenated in order.  (For `i > 0` the code inserts
`ss << ""`, an empty separator, so the pieces are simply adjacent.) -/
def uidChars (bytes : List Nat) : List Char :=
  (bytes.map byteToHex).flatten

/-- The UID string `uidStr = ss.str()` built from the byte sequence. -/
def uidToHex (bytes : List Nat) : String :=
  String.mk (uidChars bytes)

/-- Whether a character is an uppercase hexadecimal digit (`0`-`9`, `A`-`F`). -/
def isUpperHexDigit (c : Char) : Bool :=
  (48 ≤ c.toNat && c.toNat ≤ 57) || (65 ≤ c.toNat && c.toNat ≤ 70)

/-- A row of the `users` table, with the three columns the program touches
plus `username` (read by the `SELECT`; the `INSERT` leaves it at the empty
default). -/
structure Row where
  uid : String
  username : String
  tap_count : Int
  last_scan_time : Nat
  deriving Repr, DecidableEq

/-- The `users` table. -/
abbrev DB := List Row

/-- `SELECT UID, tap_count, username FROM users WHERE UID = ?` followed by
`res->next()`: the first row whose `UID` column equals the key, if any. -/
def selectByUID (db : DB) (uid : String) : Option Row :=
  db.find? (fun r => r.uid == uid)

/-- `UPDATE users SET tap_count = ?, last_scan_time = NOW() WHERE UID = ?`:
every row keyed by `uid` gets the new count and timestamp; others are kept. -/
def updateTap (db : DB) (uid : String) (newCount : Int) (now : Nat) : DB :=
  db.map (fun r =>
    if r.uid == uid then { r with tap_count := newCount, last_scan_time := now } else r)

/-- `INSERT INTO users (UID, tap_count, last_scan_time) VALUES (?, 1, NOW())`:
append a fresh row with tap count 1 and the current timestamp. -/
def insertRow (db : DB) (uid : String) (now : Nat) : DB :=
  db ++ [{ uid := uid, username := "", tap_count := 1, last_scan_time := now }]

/-- Externally visible actions of the program, in program order. -/
inductive Action where
  | connect : Action
  | sqlSelect : String → Action
  | sqlUpdate : String → Int → Action
  | sqlInsert : String → Action
  | printOut : String → Action
  | printErr : String → Action
  | sleep : Nat → Action
  deriving Repr, DecidableEq

/-- Whether an action is a `SELECT` statement. -/
def Action.isSelect : Action → Bool
  | .sqlSelect _ => true
  | _ => false

/-- Which SQL statements of an iteration raise `sql::SQLException`.  A flag
only matters when the corresponding statement is actually executed. -/
structure SqlFaults where
  selectThrows : Bool
  updateThrows : Bool
  insertThrows : Bool
  deriving Repr, DecidableEq

/-- The environment of one loop iteration: the card the reader reports
(`none` when `PICC_IsNewCardPresent` or `PICC_ReadCardSerial` fails), the
fault flags, the value of `NOW()`, and the exception message text. -/
structure IterInput where
  card : Option (List Nat)
  faults : SqlFaults
  now : Nat
  errMsg : String
  deriving Repr, DecidableEq

/-- One iteration of the `while (1)` body of `main`.  Returns the users
table after the iteration and the trace of actions it performed.

No card: both guard calls short-circuit to `continue`, so nothing happens —
in particular `delay(1000)` at the end of the body is skipped.  With a card:
print the UID line, run the `SELECT`, branch on row presence, and finish
with `delay(1000)`; a thrown statement leaves the table unchanged and logs
`SQL Exception: ...` to stderr. -/
def loopIter (db : DB) (inp : IterInput) : DB × List Action :=
  match inp.card with
  | none => (db, [])
  | some bytes =>
    let uidStr := uidToHex bytes
    let uidLine := Action.printOut ("UID: " ++ uidStr)
    let caught := Action.printErr ("SQL Exception: " ++ inp.errMsg)
    if inp.faults.selectThrows then
      (db, [uidLine, Action.sqlSelect uidStr, caught, Action.sleep 1000])
    else
      match selectByUID db uidStr with
      | some row =>
        let tapCount := row.tap_count + 1
        if inp.faults.updateThrows then
          (db, [uidLine, Action.sqlSelect uidStr, Action.sqlUpdate uidStr tapCount,
                caught, Action.sleep 1000])
        else
          let greeting :=
            if tapCount % 2 == 0 then "Goodbye " ++ row.username
            else "Hello " ++ row.username
          (updateTap db uidStr tapCount inp.now,
           [uidLine, Action.sqlSelect uidStr, Action.sqlUpdate uidStr tapCount,
            Action.printOut greeting, Action.sleep 1000])
      | none =>
        if inp.faults.insertThrows then
          (db, [uidLine, Action.sqlSelect uidStr, Action.sqlInsert uidStr,
                caught, Action.sleep 1000])
        else
          (insertRow db uidStr inp.now,
           [uidLine, Action.sqlSelect uidStr, Action.sqlInsert uidStr,
            Action.printOut "UID inserted into database.", Action.sleep 1000])

/-- The loop run over a finite prefix of iteration environments, threading
the users table and concatenating the action traces. -/
def runLoop (db : DB) : List IterInput → DB × List Action
  | [] => (db, [])
  | inp :: rest =>
    let step := loopIter db inp
    let tail := runLoop step.1 rest
    (tail.1, step.2 ++ tail.2)

/-- The whole program on a given initial table: `main` connects to the
database exactly once, before the loop, then runs the loop. -/
def runProgram (db : DB) (inputs : List IterInput) : DB × List Action :=
  let body := runLoop db inputs
  (body.1, Action.connect :: body.2)

/-- The table invariant implicit in the code: every row carries a tap count
of at least 1. -/
def dbInv (db : DB) : Prop :=
  ∀ r ∈ db, 1 ≤ r.tap_count

/-! ### Helper lemmas -/

set_option maxRecDepth 4000 in
/-- Each byte renders as exactly two characters. -/
theorem byteToHex_length : ∀ b < 256, (byteToHex b).length = 2 := by decide

set_option maxRecDepth 4000 in
/-- Each byte renders using only uppercase hexadecimal digits. -/
theorem byteToHex_upperHex : ∀ b < 256, ∀ c ∈ byteToHex b, isUpperHexDigit c = true := by
  decide

theorem uidChars_length (bytes : List Nat) (h : ∀ b ∈ bytes, b < 256) :
    (uidChars bytes).length = 2 * bytes.length := by
  induction bytes with
  | nil => rfl
  | cons b bs ih =>
    have hb : b < 256 := h b (List.mem_cons_self b bs)
    have hbs : ∀ x ∈ bs, x < 256 := fun x hx => h x (List.mem_cons_of_mem b hx)
    have : uidChars (b :: bs) = byteToHex b ++ uidChars bs := by
      simp [uidChars]
    rw [this, List.length_append, byteToHex_length b hb, ih hbs, List.length_cons]
    ring

theorem uidChars_upperHex (bytes : List Nat) (h : ∀ b ∈ bytes, b < 256) :
    ∀ c ∈ uidChars bytes, isUpperHexDigit c = true := by
  induction bytes with
  | nil => intro c hc; cases hc
  | cons b bs ih =>
    have hb : b < 256 := h b (List.mem_cons_self b bs)
    have hbs : ∀ x ∈ bs, x < 256 := fun x hx => h x (List.mem_cons_of_mem b hx)
    intro c hc
    have : uidChars (b :: bs) = byteToHex b ++ uidChars bs := by
      simp [uidChars]
    rw [this, List.mem_append] at hc
    rcases hc with hc | hc
    · exact byteToHex_upperHex b hb c hc
    · exact ih hbs c hc

/-- Looking up the key just rewritten by `updateTap` finds the rewritten row. -/
theorem selectByUID_updateTap (db : DB) (uid : String) (c : Int) (t : Nat) :
    selectByUID (updateTap db uid c t) uid =
      (selectByUID db uid).map
        (fun r => { r with tap_count := c, last_scan_time := t }) := by
  induction db with
  | nil => rfl
  | cons r rest ih =>
    by_cases hr : r.uid == uid
    · simp [selectByUID, updateTap, List.find?, hr]
    · simp only [Bool.not_eq_true] at hr
      simpa [selectByUID, updateTap, List.find?, hr] using ih

/-- A lookup that misses the front part of an appended table continues in the
back part. -/
theorem selectByUID_append_of_none (db l : DB) (uid : String)
    (h : selectByUID db uid = none) :
    selectByUID (db ++ l) uid = selectByUID l uid := by
  induction db with
  | nil => rfl
  | cons r rest ih =>
    by_cases hr : r.uid == uid
    · simp [selectByUID, List.find?, hr] at h
    · simp only [Bool.not_eq_true] at hr
      simp only [selectByUID, List.find?, hr] at h ⊢
      exact ih h

/-! ### Claims -/

/-- C1: a detected card whose UID string is in the users table causes exactly
one `SELECT` keyed by that UID, a branch on row presence, and an `UPDATE`
writing tap count `old + 1` and `last_scan_time = NOW()` for that row. -/
theorem registered_tap_updates_row (db : DB) (bytes : List Nat) (now : Nat)
    (msg : String) (row : Row)
    (h : selectByUID db (uidToHex bytes) = some row) :
    loopIter db ⟨some bytes, ⟨false, false, false⟩, now, msg⟩ =
      (updateTap db (uidToHex bytes) (row.tap_count + 1) now,
       [Action.printOut ("UID: " ++ uidToHex bytes),
        Action.sqlSelect (uidToHex bytes),
        Action.sqlUpdate (uidToHex bytes) (row.tap_count + 1),
        Action.printOut
          (if (row.tap_count + 1) % 2 == 0 then "Goodbye " ++ row.username
           else "Hello " ++ row.username),
        Action.sleep 1000]) ∧
    selectByUID (loopIter db ⟨some bytes, ⟨false, false, false⟩, now, msg⟩).1
        (uidToHex bytes) =
      some { row with tap_count := row.tap_count + 1, last_scan_time := now } ∧
    (loopIter db ⟨some bytes, ⟨false, false, false⟩, now, msg⟩).2.filter
        Action.isSelect = [Action.sqlSelect (uidToHex bytes)] := by
  have h1 : loopIter db ⟨some bytes, ⟨false, false, false⟩, now, msg⟩ =
      (updateTap db (uidToHex bytes) (row.tap_count + 1) now,
       [Action.printOut ("UID: " ++ uidToHex bytes),
        Action.sqlSelect (uidToHex bytes),
        Action.sqlUpdate (uidToHex bytes) (row.tap_count + 1),
        Action.printOut
          (if (row.tap_count + 1) % 2 == 0 then "Goodbye " ++ row.username
           else "Hello " ++ row.username),
        Action.sleep 1000]) := by
    simp [loopIter, h]
  refine ⟨h1, ?_, ?_⟩
  · rw [h1]
    simp [selectByUID_updateTap, h]
  · rw [h1]
    simp [Action.isSelect]

theorem registered_tap_updates_row_witness :
    selectByUID [⟨"AB", "dan", 3, 0⟩] (uidToHex [171]) = some ⟨"AB", "dan", 3, 0⟩ ∧
    selectByUID
        (loopIter [⟨"AB", "dan", 3, 0⟩]
          ⟨some [171], ⟨false, false, false⟩, 7, "m"⟩).1 (uidToHex [171]) =
      some ⟨"AB", "dan", 4, 7⟩ :=
  ⟨by decide,
   (registered_tap_updates_row [⟨"AB", "dan", 3, 0⟩] [171] 7 "m"
      ⟨"AB", "dan", 3, 0⟩ (by decide)).2.1⟩

/-- C2: a detected card whose UID string is absent from the users table causes
an `INSERT` of a fresh row with tap count 1 and `last_scan_time = NOW()`,
appended after the existing rows, which are left unmodified. -/
theorem unknown_tap_inserts_row (db : DB) (bytes : List Nat) (now : Nat)
    (msg : String) (h : selectByUID db (uidToHex bytes) = none) :
    loopIter db ⟨some bytes, ⟨false, false, false⟩, now, msg⟩ =
      (db ++ [⟨uidToHex bytes, "", 1, now⟩],
       [Action.printOut ("UID: " ++ uidToHex bytes),
        Action.sqlSelect (uidToHex bytes),
        Action.sqlInsert (uidToHex bytes),
        Action.printOut "UID inserted into database.",
        Action.sleep 1000]) ∧
    (loopIter db ⟨some bytes, ⟨false, false, false⟩, now, msg⟩).1.take db.length =
      db := by
  have h1 : loopIter db ⟨some bytes, ⟨false, false, false⟩, now, msg⟩ =
      (db ++ [⟨uidToHex bytes, "", 1, now⟩],
       [Action.printOut ("UID: " ++ uidToHex bytes),
        Action.sqlSelect (uidToHex bytes),
        Action.sqlInsert (uidToHex bytes),
        Action.printOut "UID inserted into database.",
        Action.sleep 1000]) := by
    simp [loopIter, h, insertRow]
  refine ⟨h1, ?_⟩
  rw [h1]
  simp

theorem unknown_tap_inserts_row_witness :
    selectByUID [] (uidToHex [171]) = none ∧
    (loopIter [] ⟨some [171], ⟨false, false, false⟩, 5, "m"⟩).1 =
      [⟨"AB", "", 1, 5⟩] :=
  ⟨by decide, by
    rw [(unknown_tap_inserts_row [] [171] 5 "m" (by decide)).1]
    decide⟩

/-- C3: on a tap of a registered UID, the greeting alternates by the parity
of the tap count after the increment: odd prints `Hello <username>`, even
prints `Goodbye <username>`. -/
theorem greeting_parity (db : DB) (bytes : List Nat) (now : Nat) (msg : String)
    (row : Row) (h : selectByUID db (uidToHex bytes) = some row) :
    ((row.tap_count + 1) % 2 = 1 →
      Action.printOut ("Hello " ++ row.username) ∈
        (loopIter db ⟨some bytes, ⟨false, false, false⟩, now, msg⟩).2) ∧
    ((row.tap_count + 1) % 2 = 0 →
      Action.printOut ("Goodbye " ++ row.username) ∈
        (loopIter db ⟨some bytes, ⟨false, false, false⟩, now, msg⟩).2) := by
  constructor
  · intro hp
    have hb : ((row.tap_count + 1) % 2 == 0) = false := by rw [hp]; decide
    simp [loopIter, h, hb]
  · intro hp
    have hb : ((row.tap_count + 1) % 2 == 0) = true := by rw [hp]; decide
    simp [loopIter, h, hb]

theorem greeting_parity_witness :
    ((3 : Int) + 1) % 2 = 0 ∧
    Action.printOut ("Goodbye " ++ "dan") ∈
      (loopIter [⟨"AB", "dan", 3, 0⟩]
        ⟨some [171], ⟨false, false, false⟩, 7, "m"⟩).2 :=
  ⟨by decide,
   (greeting_parity [⟨"AB", "dan", 3, 0⟩] [171] 7 "m" ⟨"AB", "dan", 3, 0⟩
      (by decide)).2 (by decide)⟩

/-- C4: the UID key is the byte sequence rendered as an uppercase hex string —
two zero-padded uppercase hex digits per byte, concatenated without
separators, so its length is twice the byte count — and that string keys the
one `SELECT` of the iteration and the `UID:` line printed for the card. -/
theorem uid_hex_rendering (bytes : List Nat) (h : ∀ b ∈ bytes, b < 256) :
    (uidToHex bytes).length = 2 * bytes.length ∧
    (∀ c ∈ (uidToHex bytes).data, isUpperHexDigit c = true) ∧
    (∀ db faults now msg,
      (loopIter db ⟨some bytes, faults, now, msg⟩).2.filter Action.isSelect =
        [Action.sqlSelect (uidToHex bytes)] ∧
      Action.printOut ("UID: " ++ uidToHex bytes) ∈
        (loopIter db ⟨some bytes, faults, now, msg⟩).2) := by
  refine ⟨?_, ?_, ?_⟩
  · have hlen : (uidToHex bytes).length = (uidChars bytes).length := rfl
    rw [hlen, uidChars_length bytes h]
  · intro c hc
    exact uidChars_upperHex bytes h c hc
  · intro db faults now msg
    obtain ⟨st, ut, it⟩ := faults
    cases st <;> cases ut <;> cases it <;>
      rcases hdb : selectByUID db (uidToHex bytes) with _ | row <;>
        exact ⟨by simp [loopIter, hdb, Action.isSelect],
               by simp [loopIter, hdb]⟩

theorem uid_hex_rendering_witness :
    (∀ b ∈ [0, 171, 255], b < 256) ∧
    (uidToHex [0, 171, 255]).length = 2 * [0, 171, 255].length :=
  ⟨by decide, (uid_hex_rendering [0, 171, 255] (by decide)).1⟩

/-- C5: a SQL exception from the `SELECT`, the `UPDATE`, or the `INSERT` is
caught and logged to stderr, and the loop goes on to the next iteration
unconditionally: `runLoop` always processes the tail after any iteration. -/
theorem sql_exception_caught_loop_continues (db : DB) (inp : IterInput)
    (rest : List IterInput) (bytes : List Nat) (hc : inp.card = some bytes) :
    (inp.faults.selectThrows = true →
       Action.printErr ("SQL Exception: " ++ inp.errMsg) ∈ (loopIter db inp).2) ∧
    (inp.faults.selectThrows = false → inp.faults.updateThrows = true →
       (∃ r, selectByUID db (uidToHex bytes) = some r) →
       Action.printErr ("SQL Exception: " ++ inp.errMsg) ∈ (loopIter db inp).2) ∧
    (inp.faults.selectThrows = false → inp.faults.insertThrows = true →
       selectByUID db (uidToHex bytes) = none →
       Action.printErr ("SQL Exception: " ++ inp.errMsg) ∈ (loopIter db inp).2) ∧
    runLoop db (inp :: rest) =
      ((runLoop (loopIter db inp).1 rest).1,
       (loopIter db inp).2 ++ (runLoop (loopIter db inp).1 rest).2) := by
  obtain ⟨card, ⟨st, ut, it⟩, now, msg⟩ := inp
  replace hc : card = some bytes := hc
  subst hc
  refine ⟨?_, ?_, ?_, rfl⟩
  · intro hst
    replace hst : st = true := hst
    subst hst
    simp [loopIter]
  · rintro hst hut ⟨r, hr⟩
    replace hst : st = false := hst
    replace hut : ut = true := hut
    subst hst; subst hut
    simp [loopIter, hr]
  · intro hst hit hn
    replace hst : st = false := hst
    replace hit : it = true := hit
    subst hst; subst hit
    simp [loopIter, hn]

theorem sql_exception_caught_loop_continues_witness :
    Action.printErr ("SQL Exception: " ++ "boom") ∈
      (loopIter [] ⟨some [171], ⟨true, false, false⟩, 0, "boom"⟩).2 :=
  (sql_exception_caught_loop_continues []
      ⟨some [171], ⟨true, false, false⟩, 0, "boom"⟩ [] [171] rfl).1 rfl

/-- C6 counterexample: an iteration in which no card is detected hits the
`continue` before `delay(1000)`, so it performs no sleep at all — the claim
that the loop sleeps in every iteration, including no-card iterations, is
false. -/
theorem no_card_skips_delay_counterexample :
    (loopIter [] ⟨none, ⟨false, false, false⟩, 0, ""⟩).2 = [] ∧
    Action.sleep 1000 ∉ (loopIter [] ⟨none, ⟨false, false, false⟩, 0, ""⟩).2 :=
  ⟨rfl, by decide⟩

/-- C6 amended: `delay(1000)` runs in every iteration in which a card was
detected and read, whatever the lookup outcome or faults; an iteration in
which no card is detected performs nothing at all (the `continue` precedes
the delay, so the loop re-polls immediately). -/
theorem delay_only_on_detection (db : DB) (inp : IterInput) :
    (∀ bytes, inp.card = some bytes →
       Action.sleep 1000 ∈ (loopIter db inp).2) ∧
    (inp.card = none → (loopIter db inp).2 = []) := by
  obtain ⟨card, ⟨st, ut, it⟩, now, msg⟩ := inp
  constructor
  · intro bytes hc
    replace hc : card = some bytes := hc
    subst hc
    cases st <;> cases ut <;> cases it <;>
      rcases hdb : selectByUID db (uidToHex bytes) with _ | row <;>
        simp [loopIter, hdb]
  · intro hc
    replace hc : card = none := hc
    subst hc
    rfl

theorem delay_only_on_detection_witness :
    Action.sleep 1000 ∈
      (loopIter [] ⟨some [1], ⟨false, false, false⟩, 0, ""⟩).2 :=
  (delay_only_on_detection [] ⟨some [1], ⟨false, false, false⟩, 0, ""⟩).1 [1] rfl

/-- No iteration of the loop body ever connects to the database. -/
theorem connect_not_mem_loopIter (db : DB) (inp : IterInput) :
    Action.connect ∉ (loopIter db inp).2 := by
  obtain ⟨card, ⟨st, ut, it⟩, now, msg⟩ := inp
  rcases card with _ | bytes
  · simp [loopIter]
  · cases st <;> cases ut <;> cases it <;>
      rcases hdb : selectByUID db (uidToHex bytes) with _ | row <;>
        simp [loopIter, hdb]

theorem connect_count_runLoop (db : DB) (inputs : List IterInput) :
    (runLoop db inputs).2.count Action.connect = 0 := by
  induction inputs generalizing db with
  | nil => rfl
  | cons inp rest ih =>
    have h1 := connect_not_mem_loopIter db inp
    simp [runLoop, List.count_append, ih, List.count_eq_zero.mpr h1]

/-- C7: the program establishes exactly one database connection, before the
loop, and no iteration — faulted or not — ever connects again. -/
theorem single_connection (db : DB) (inputs : List IterInput) :
    (runProgram db inputs).2.count Action.connect = 1 ∧
    (runProgram db inputs).2.head? = some Action.connect ∧
    Action.connect ∉ (runLoop db inputs).2 := by
  refine ⟨?_, rfl, List.count_eq_zero.mp (connect_count_runLoop db inputs)⟩
  show (Action.connect :: (runLoop db inputs).2).count Action.connect = 1
  rw [List.count_cons_self, connect_count_runLoop]

/-- A successful lookup returns a row of the table. -/
theorem mem_of_selectByUID (db : DB) (uid : String) (r : Row)
    (h : selectByUID db uid = some r) : r ∈ db :=
  List.mem_of_find?_eq_some h

/-- The table after an iteration is the old table, the old table with the
found row's key rewritten, or the old table with a fresh row appended. -/
theorem loopIter_fst_cases (db : DB) (inp : IterInput) :
    (loopIter db inp).1 = db ∨
    (∃ bytes row, inp.card = some bytes ∧
       selectByUID db (uidToHex bytes) = some row ∧
       (loopIter db inp).1 =
         updateTap db (uidToHex bytes) (row.tap_count + 1) inp.now) ∨
    (∃ bytes, inp.card = some bytes ∧
       selectByUID db (uidToHex bytes) = none ∧
       (loopIter db inp).1 = insertRow db (uidToHex bytes) inp.now) := by
  obtain ⟨card, ⟨st, ut, it⟩, now, msg⟩ := inp
  rcases card with _ | bytes
  · exact Or.inl rfl
  · cases st
    · rcases hdb : selectByUID db (uidToHex bytes) with _ | row
      · cases it
        · refine Or.inr (Or.inr ⟨bytes, rfl, hdb, ?_⟩)
          simp [loopIter, hdb]
        · exact Or.inl (by simp [loopIter, hdb])
      · cases ut
        · refine Or.inr (Or.inl ⟨bytes, row, rfl, hdb, ?_⟩)
          simp [loopIter, hdb]
        · exact Or.inl (by simp [loopIter, hdb])
    · exact Or.inl (by simp [loopIter])

theorem dbInv_updateTap (db : DB) (uid : String) (c : Int) (t : Nat)
    (h : dbInv db) (hc : 1 ≤ c) : dbInv (updateTap db uid c t) := by
  intro r hr
  obtain ⟨r0, hr0, rfl⟩ := List.mem_map.mp hr
  by_cases h0 : r0.uid == uid
  · simp only [h0, if_true]
    exact hc
  · simp only [Bool.not_eq_true] at h0
    simp only [h0, Bool.false_eq_true, if_false]
    exact h r0 hr0

theorem dbInv_insertRow (db : DB) (uid : String) (t : Nat) (h : dbInv db) :
    dbInv (insertRow db uid t) := by
  intro r hr
  rw [insertRow, List.mem_append] at hr
  rcases hr with hr | hr
  · exact h r hr
  · rw [List.mem_singleton] at hr
    subst hr
    exact le_refl 1

theorem dbInv_loopIter (db : DB) (inp : IterInput) (h : dbInv db) :
    dbInv (loopIter db inp).1 := by
  rcases loopIter_fst_cases db inp with heq | ⟨bytes, row, _, hdb, heq⟩ |
    ⟨bytes, _, hdb, heq⟩
  · rw [heq]; exact h
  · rw [heq]
    have hrow : 1 ≤ row.tap_count :=
      h row (mem_of_selectByUID db (uidToHex bytes) row hdb)
    exact dbInv_updateTap db (uidToHex bytes) (row.tap_count + 1) inp.now h
      (by omega)
  · rw [heq]
    exact dbInv_insertRow db (uidToHex bytes) inp.now h

theorem dbInv_runLoop (db : DB) (inputs : List IterInput) (h : dbInv db) :
    dbInv (runLoop db inputs).1 := by
  induction inputs generalizing db with
  | nil => exact h
  | cons inp rest ih => exact ih (loopIter db inp).1 (dbInv_loopIter db inp h)

/-- C8: rows written by the program always carry `tap_count >= 1`: the insert
branch writes 1, the update branch writes the value it read plus one (hence
strictly more than it read), and the invariant is preserved by every
iteration of the loop. -/
theorem tap_count_invariant (db : DB) (inputs : List IterInput) (h : dbInv db) :
    dbInv (runLoop db inputs).1 ∧
    (∀ inp, dbInv (loopIter db inp).1) ∧
    (∀ bytes now msg row, selectByUID db (uidToHex bytes) = some row →
       Action.sqlUpdate (uidToHex bytes) (row.tap_count + 1) ∈
         (loopIter db ⟨some bytes, ⟨false, false, false⟩, now, msg⟩).2 ∧
       row.tap_count < row.tap_count + 1) := by
  refine ⟨dbInv_runLoop db inputs h, fun inp => dbInv_loopIter db inp h, ?_⟩
  intro bytes now msg row hdb
  constructor
  · simp [loopIter, hdb]
  · omega

theorem tap_count_invariant_witness :
    dbInv [] ∧ dbInv (runLoop [] [⟨some [171], ⟨false, false, false⟩, 0, ""⟩]).1 :=
  ⟨by intro r hr; simp at hr,
   (tap_count_invariant [] [⟨some [171], ⟨false, false, false⟩, 0, ""⟩]
      (by intro r hr; simp at hr)).1⟩

/-- Two appends differ when the strings left of the append differ at an
index each of them covers. -/
theorem append_ne_append_of_get (s t u v : String) (n : Nat) (c d : Char)
    (hs : s.data[n]? = some c) (hu : u.data[n]? = some d) (hcd : c ≠ d) :
    s ++ t ≠ u ++ v := by
  intro h
  obtain ⟨hsl, -⟩ := List.getElem?_eq_some_iff.mp hs
  obtain ⟨hul, -⟩ := List.getElem?_eq_some_iff.mp hu
  have h2 : (s.data ++ t.data)[n]? = (u.data ++ v.data)[n]? := by
    rw [← String.data_append, ← String.data_append, h]
  rw [List.getElem?_append_left hsl, List.getElem?_append_left hul, hs, hu] at h2
  exact hcd (Option.some.inj h2)

/-- An append differs from a string that differs at an index the left part
covers. -/
theorem append_ne_of_get (s t u : String) (n : Nat) (c d : Char)
    (hs : s.data[n]? = some c) (hu : u.data[n]? = some d) (hcd : c ≠ d) :
    s ++ t ≠ u := by
  intro h
  rw [← String.append_empty u] at h
  exact append_ne_append_of_get s t u "" n c d hs hu hcd h

/-- C9 counterexample: the first tap of an unknown UID also prints the
`UID:` echo line, which is distinct from `UID inserted into database.` —
so the program does not print *only* the insertion message. -/
theorem first_tap_prints_uid_line_counterexample :
    Action.printOut "UID: 01" ∈
      (loopIter [] ⟨some [1], ⟨false, false, false⟩, 0, ""⟩).2 ∧
    ("UID: 01" : String) ≠ "UID inserted into database." :=
  ⟨by decide, by decide⟩

/-- C9 amended: on the first tap of a previously unknown UID no greeting is
printed: besides the `UID: <uid>` echo printed for every detected card, the
only output is `UID inserted into database.`; a `Hello`/`Goodbye` greeting
first occurs on that UID's second tap onward. -/
theorem first_tap_no_greeting (db : DB) (bytes : List Nat) (now1 now2 : Nat)
    (msg1 msg2 : String) (h : selectByUID db (uidToHex bytes) = none) :
    (loopIter db ⟨some bytes, ⟨false, false, false⟩, now1, msg1⟩).2 =
      [Action.printOut ("UID: " ++ uidToHex bytes),
       Action.sqlSelect (uidToHex bytes),
       Action.sqlInsert (uidToHex bytes),
       Action.printOut "UID inserted into database.",
       Action.sleep 1000] ∧
    (∀ s, Action.printOut ("Hello " ++ s) ∉
        (loopIter db ⟨some bytes, ⟨false, false, false⟩, now1, msg1⟩).2 ∧
      Action.printOut ("Goodbye " ++ s) ∉
        (loopIter db ⟨some bytes, ⟨false, false, false⟩, now1, msg1⟩).2) ∧
    Action.printOut ("Goodbye " ++ "") ∈
      (loopIter (loopIter db ⟨some bytes, ⟨false, false, false⟩, now1, msg1⟩).1
        ⟨some bytes, ⟨false, false, false⟩, now2, msg2⟩).2 := by
  have h1 : (loopIter db ⟨some bytes, ⟨false, false, false⟩, now1, msg1⟩).2 =
      [Action.printOut ("UID: " ++ uidToHex bytes),
       Action.sqlSelect (uidToHex bytes),
       Action.sqlInsert (uidToHex bytes),
       Action.printOut "UID inserted into database.",
       Action.sleep 1000] := by
    simp [loopIter, h]
  refine ⟨h1, ?_, ?_⟩
  · intro s
    constructor
    · intro hmem
      rw [h1] at hmem
      simp only [List.mem_cons, List.not_mem_nil, or_false] at hmem
      rcases hmem with h2 | h2 | h2 | h2 | h2
      · exact append_ne_append_of_get "Hello " s "UID: " (uidToHex bytes) 0
          'H' 'U' (by decide) (by decide) (by decide) (Action.printOut.inj h2)
      · exact Action.noConfusion h2
      · exact Action.noConfusion h2
      · exact append_ne_of_get "Hello " s "UID inserted into database." 0
          'H' 'U' (by decide) (by decide) (by decide) (Action.printOut.inj h2)
      · exact Action.noConfusion h2
    · intro hmem
      rw [h1] at hmem
      simp only [List.mem_cons, List.not_mem_nil, or_false] at hmem
      rcases hmem with h2 | h2 | h2 | h2 | h2
      · exact append_ne_append_of_get "Goodbye " s "UID: " (uidToHex bytes) 0
          'G' 'U' (by decide) (by decide) (by decide) (Action.printOut.inj h2)
      · exact Action.noConfusion h2
      · exact Action.noConfusion h2
      · exact append_ne_of_get "Goodbye " s "UID inserted into database." 0
          'G' 'U' (by decide) (by decide) (by decide) (Action.printOut.inj h2)
      · exact Action.noConfusion h2
  · have hfst : (loopIter db ⟨some bytes, ⟨false, false, false⟩, now1, msg1⟩).1 =
        insertRow db (uidToHex bytes) now1 := by
      simp [loopIter, h]
    have hdb1 : selectByUID (insertRow db (uidToHex bytes) now1)
        (uidToHex bytes) = some ⟨uidToHex bytes, "", 1, now1⟩ := by
      rw [insertRow, selectByUID_append_of_none db _ _ h]
      simp [selectByUID, List.find?]
    rw [hfst]
    simp [loopIter, hdb1]

theorem first_tap_no_greeting_witness :
    Action.printOut ("Goodbye " ++ "") ∈
      (loopIter (loopIter [] ⟨some [1], ⟨false, false, false⟩, 0, ""⟩).1
        ⟨some [1], ⟨false, false, false⟩, 1, ""⟩).2 :=
  (first_tap_no_greeting [] [1] 0 1 "" "" (by decide)).2.2

/-- C10: success messages are printed only after the corresponding write was
issued without raising: when the `UPDATE` throws, the trace ends in the
exception log with no greeting; when the `INSERT` throws, no
`UID inserted into database.` is printed; in the no-fault branches the
message immediately follows the write action. -/
theorem messages_follow_writes (db : DB) (bytes : List Nat) (now : Nat)
    (msg : String) :
    (∀ row, selectByUID db (uidToHex bytes) = some row →
       (loopIter db ⟨some bytes, ⟨false, true, false⟩, now, msg⟩).2 =
         [Action.printOut ("UID: " ++ uidToHex bytes),
          Action.sqlSelect (uidToHex bytes),
          Action.sqlUpdate (uidToHex bytes) (row.tap_count + 1),
          Action.printErr ("SQL Exception: " ++ msg),
          Action.sleep 1000] ∧
       (∀ s, Action.printOut s ∈
           (loopIter db ⟨some bytes, ⟨false, true, false⟩, now, msg⟩).2 →
          s = "UID: " ++ uidToHex bytes)) ∧
    (selectByUID db (uidToHex bytes) = none →
       (loopIter db ⟨some bytes, ⟨false, false, true⟩, now, msg⟩).2 =
         [Action.printOut ("UID: " ++ uidToHex bytes),
          Action.sqlSelect (uidToHex bytes),
          Action.sqlInsert (uidToHex bytes),
          Action.printErr ("SQL Exception: " ++ msg),
          Action.sleep 1000] ∧
       Action.printOut "UID inserted into database." ∉
         (loopIter db ⟨some bytes, ⟨false, false, true⟩, now, msg⟩).2) ∧
    (∀ row, selectByUID db (uidToHex bytes) = some row →
       (loopIter db ⟨some bytes, ⟨false, false, false⟩, now, msg⟩).2 =
         [Action.printOut ("UID: " ++ uidToHex bytes),
          Action.sqlSelect (uidToHex bytes)] ++
           Action.sqlUpdate (uidToHex bytes) (row.tap_count + 1) ::
           Action.printOut
             (if (row.tap_count + 1) % 2 == 0 then "Goodbye " ++ row.username
              else "Hello " ++ row.username) :: [Action.sleep 1000]) ∧
    (selectByUID db (uidToHex bytes) = none →
       (loopIter db ⟨some bytes, ⟨false, false, false⟩, now, msg⟩).2 =
         [Action.printOut ("UID: " ++ uidToHex bytes),
          Action.sqlSelect (uidToHex bytes)] ++
           Action.sqlInsert (uidToHex bytes) ::
           Action.printOut "UID inserted into database." ::
           [Action.sleep 1000]) := by
  refine ⟨?_, ?_, ?_, ?_⟩
  · intro row h
    have h1 : (loopIter db ⟨some bytes, ⟨false, true, false⟩, now, msg⟩).2 =
        [Action.printOut ("UID: " ++ uidToHex bytes),
         Action.sqlSelect (uidToHex bytes),
         Action.sqlUpdate (uidToHex bytes) (row.tap_count + 1),
         Action.printErr ("SQL Exception: " ++ msg),
         Action.sleep 1000] := by
      simp [loopIter, h]
    refine ⟨h1, ?_⟩
    intro s hs
    rw [h1] at hs
    simpa using hs
  · intro h
    have h1 : (loopIter db ⟨some bytes, ⟨false, false, true⟩, now, msg⟩).2 =
        [Action.printOut ("UID: " ++ uidToHex bytes),
         Action.sqlSelect (uidToHex bytes),
         Action.sqlInsert (uidToHex bytes),
         Action.printErr ("SQL Exception: " ++ msg),
         Action.sleep 1000] := by
      simp [loopIter, h]
    refine ⟨h1, ?_⟩
    intro hmem
    rw [h1] at hmem
    simp only [List.mem_cons, List.not_mem_nil, or_false] at hmem
    rcases hmem with h2 | h2 | h2 | h2 | h2
    · exact append_ne_of_get "UID: " (uidToHex bytes)
        "UID inserted into database." 3 ':' ' ' (by decide) (by decide)
        (by decide) (Action.printOut.inj h2).symm
    · exact Action.noConfusion h2
    · exact Action.noConfusion h2
    · exact Action.noConfusion h2
    · exact Action.noConfusion h2
  · intro row h
    simp [loopIter, h]
  · intro h
    simp [loopIter, h]

theorem messages_follow_writes_witness :
    Action.printOut "UID inserted into database." ∉
      (loopIter [] ⟨some [1], ⟨false, false, true⟩, 0, "e"⟩).2 :=
  ((messages_follow_writes [] [1] 0 "e").2.1 (by decide)).2

end RFIDScanner
